import Mathlib

/-!
Verification of the Network Configuration Generator (`generate.py`).

The development shallowly embeds the program's core: the CPython
`ipaddress` parsing routines that the field validators and the
mask-to-prefix-length Jinja2 filter delegate to, the pydantic-style
record validation of `DeviceModel` / `VlanModel`, the fail-fast batch
validation `validate_devices`, and the CLI pipeline of `main`
(filtering, rendering dispatch, preview vs. persist sinks).

Strings are processed as their underlying character lists; machine
integers do not occur (CPython integers are unbounded, and all values
here are bounded naturals).
-/

/-! ## Python `str.split(sep)` for a one-character separator -/

/-- Python `s.split(sep)` for a single-character separator: every occurrence
of `c` separates two (possibly empty) parts, and `"".split(c) = [""]`. -/
def splitOnChar (c : Char) : List Char → List (List Char)
  | [] => [[]]
  | x :: xs =>
    match splitOnChar c xs with
    | [] => [[]]
    | h :: t => if x = c then [] :: h :: t else (x :: h) :: t

theorem splitOnChar_ne_nil (c : Char) (l : List Char) : splitOnChar c l ≠ [] := by
  induction l with
  | nil => simp [splitOnChar]
  | cons x xs ih =>
    simp only [splitOnChar]
    cases h : splitOnChar c xs with
    | nil => simp
    | cons h t =>
      by_cases hx : x = c <;> simp [hx]

theorem length_splitOnChar (c : Char) (l : List Char) :
    (splitOnChar c l).length = l.count c + 1 := by
  induction l with
  | nil => simp [splitOnChar]
  | cons x xs ih =>
    simp only [splitOnChar]
    cases h : splitOnChar c xs with
    | nil => exact absurd h (splitOnChar_ne_nil c xs)
    | cons hd tl =>
      rw [h] at ih
      by_cases hx : x = c
      · subst hx
        simp [List.count_cons_self, ← ih]
      · simp only [if_neg hx]
        rw [List.count_cons_of_ne (fun hc => hx hc.symm)]
        simpa using ih

theorem splitOnChar_not_mem {c : Char} {l : List Char} (h : c ∉ l) :
    splitOnChar c l = [l] := by
  induction l with
  | nil => simp [splitOnChar]
  | cons x xs ih =>
    have hx : x ≠ c := fun hc => h (hc ▸ List.mem_cons_self x xs)
    have hxs : c ∉ xs := fun hc => h (List.mem_cons_of_mem x hc)
    simp only [splitOnChar, ih hxs, if_neg hx]

theorem splitOnChar_append {c : Char} {l₁ : List Char} (l₂ : List Char)
    (h : c ∉ l₁) : splitOnChar c (l₁ ++ c :: l₂) = l₁ :: splitOnChar c l₂ := by
  induction l₁ with
  | nil =>
    simp only [List.nil_append, splitOnChar]
    cases hs : splitOnChar c l₂ with
    | nil => exact absurd hs (splitOnChar_ne_nil c l₂)
    | cons hd tl => simp
  | cons x xs ih =>
    have hx : x ≠ c := fun hc => h (hc ▸ List.mem_cons_self x xs)
    have hxs : c ∉ xs := fun hc => h (List.mem_cons_of_mem x hc)
    simp only [List.cons_append, splitOnChar, List.append_eq]
    rw [ih hxs]
    simp [if_neg hx]

/-! ## CPython `ipaddress` IPv4 parsing (`IPv4Address._ip_int_from_string`) -/

/-- Value of a decimal digit string, `int(s, 10)` on an all-digit string. -/
def digitsToNat (l : List Char) : Nat :=
  l.foldl (fun a c => a * 10 + (c.toNat - 48)) 0

/-- CPython `_BaseV4._parse_octet`: 1-3 ASCII decimal digits, no leading
zero (except the octet `"0"` itself), value at most 255. -/
def parse_octet (l : List Char) : Option Nat :=
  if l = [] then none
  else if ¬ l.all Char.isDigit then none
  else if l.length > 3 then none
  else if l ≠ ['0'] ∧ l.head? = some '0' then none
  else if digitsToNat l > 255 then none
  else some (digitsToNat l)

/-- CPython `_BaseV4._ip_int_from_string`: exactly four octets separated
by dots, combined big-endian into one integer. -/
def ip_int_from_string_v4 (l : List Char) : Option Nat :=
  if l = [] then none
  else
    match splitOnChar '.' l with
    | [a, b, c, d] =>
      match parse_octet a, parse_octet b, parse_octet c, parse_octet d with
      | some x, some y, some z, some w => some (((x * 256 + y) * 256 + z) * 256 + w)
      | _, _, _, _ => none
    | _ => none

/-- CPython `IPv4Address.__init__` on a string: rejects any `'/'`, then
parses the dotted-decimal form. -/
def IPv4Address_parse (s : String) : Option Nat :=
  if '/' ∈ s.data then none
  else ip_int_from_string_v4 s.data

example : IPv4Address_parse "10.0.0.5" = some 167772165 := by decide
example : IPv4Address_parse "255.255.255.0" = some 4294967040 := by decide
example : IPv4Address_parse "10.0.0.256" = none := by decide
example : IPv4Address_parse "10.0.00.5" = none := by decide
example : IPv4Address_parse "10.0.0" = none := by decide

/-! ## CPython `ipaddress` IPv6 parsing (`IPv6Address._ip_int_from_string`) -/

/-- ASCII hexadecimal digit (CPython `_BaseV6._HEX_DIGITS`). -/
def isHexDigitChar (c : Char) : Bool :=
  c.isDigit || ('a' ≤ c && c ≤ 'f') || ('A' ≤ c && c ≤ 'F')

/-- Value of one hexadecimal digit. -/
def hexVal (c : Char) : Nat :=
  if c.isDigit then c.toNat - 48
  else if 'a' ≤ c ∧ c ≤ 'f' then c.toNat - 87
  else if 'A' ≤ c ∧ c ≤ 'F' then c.toNat - 55
  else 0

/-- CPython `_BaseV6._parse_hextet`: at most 4 hex digits (an empty
hextet fails `int(s, 16)`). -/
def parse_hextet (l : List Char) : Option Nat :=
  if ¬ l.all isHexDigitChar then none
  else if l.length > 4 then none
  else if l = [] then none
  else some (l.foldl (fun a c => a * 16 + hexVal c) 0)

/-- Accumulate hextets big-endian, 16 bits each (the `ip_int <<= 16;
ip_int |= hextet` loop). -/
def hextetsFold (parts : List (List Char)) : Option Nat :=
  parts.foldl
    (fun acc p =>
      match acc, parse_hextet p with
      | some a, some h => some (a * 65536 + h)
      | _, _ => none)
    (some 0)

/-- Indices of empty parts strictly between the endpoints (the scan for
the position of `::`). -/
def innerEmptyIdxs (parts : List (List Char)) : List Nat :=
  (List.range parts.length).filter fun i =>
    decide (0 < i ∧ i < parts.length - 1 ∧ parts.getD i ['x'] = [])

/-- CPython `_BaseV6._ip_int_from_string`: split on `':'`, fold a
trailing IPv4 suffix into two hextets, locate the single `::` gap,
and combine the hextets around it. -/
def ip_int_from_string_v6 (l : List Char) : Option Nat :=
  if l = [] then none
  else
    let parts0 := splitOnChar ':' l
    if parts0.length < 3 then none
    else
      let withV4 : Option (List (List Char)) :=
        match parts0.getLast? with
        | none => some parts0
        | some last =>
          if '.' ∈ last then
            match ip_int_from_string_v4 last with
            | none => none
            | some v4 =>
              some (parts0.dropLast ++ [Nat.toDigits 16 (v4 / 65536), Nat.toDigits 16 (v4 % 65536)])
          else some parts0
      match withV4 with
      | none => none
      | some parts =>
        if parts.length > 9 then none
        else
          match innerEmptyIdxs parts with
          | [] =>
            if parts.length ≠ 8 then none
            else if parts.headD ['x'] = [] then none
            else if parts.getLast? = some [] then none
            else hextetsFold parts
          | [si] =>
            let headEmpty := parts.headD ['x'] = []
            let lastEmpty := parts.getLast? = some []
            if headEmpty ∧ si - 1 ≠ 0 then none
            else if lastEmpty ∧ parts.length - si - 2 ≠ 0 then none
            else
              let partsHi := if headEmpty then si - 1 else si
              let partsLo :=
                if lastEmpty then parts.length - si - 2 else parts.length - si - 1
              if partsHi + partsLo > 7 then none
              else
                let skipped := 8 - (partsHi + partsLo)
                match hextetsFold (parts.take partsHi),
                    hextetsFold (parts.drop (parts.length - partsLo)) with
                | some hi, some lo => some (hi * 2 ^ (16 * (skipped + partsLo)) + lo)
                | _, _ => none
          | _ => none

/-- CPython `IPv6Address.__init__` on a string: reject `'/'`, split off a
scope id at the first `'%'` (it must be nonempty and `'%'`-free), parse
the rest. -/
def IPv6Address_parse (s : String) : Option Nat :=
  if '/' ∈ s.data then none
  else
    match splitOnChar '%' s.data with
    | [a] => ip_int_from_string_v6 a
    | [a, sc] => if sc = [] then none else ip_int_from_string_v6 a
    | _ => none

example : IPv6Address_parse "::" = some 0 := by decide
example : IPv6Address_parse "::1" = some 1 := by decide
example : IPv6Address_parse "fe80::1%eth0" = some 338288524927261089654018896841347694593 := by decide
example : IPv6Address_parse "1:2:3:4:5:6:7:8" =
    some 5192455318486707404433266433261576 := by decide
example : IPv6Address_parse ":::" = none := by decide
example : IPv6Address_parse "1::2::3" = none := by decide
example : IPv6Address_parse "10.0.0.5" = none := by decide
example : IPv6Address_parse "::ffff:192.168.1.1" = some 281473913979137 := by decide
example : IPv6Address_parse "1:2:3:4:5:6:7" = none := by decide
example : IPv6Address_parse "fe80::1%" = none := by decide

/-! ## `ipaddress.ip_address` and the pydantic field validators -/

/-- `ipaddress.ip_address(v)` succeeds: IPv4 first, IPv6 second. -/
def ip_address_ok (s : String) : Bool :=
  (IPv4Address_parse s).isSome || (IPv6Address_parse s).isSome

/-- `TEMPLATE_MAP`: device type to Jinja2 template filename. -/
def TEMPLATE_MAP : List (String × String) :=
  [("cisco_ios", "cisco_base.j2"), ("juniper_junos", "juniper_base.j2")]

/-- `DEFAULT_DEVICE_TYPE`. -/
def DEFAULT_DEVICE_TYPE : String := "cisco_ios"

/-- `DeviceModel.validate_ip`: the raised `ValueError` is the `.error`. -/
def validate_ip (v : String) : Except String String :=
  if ip_address_ok v then Except.ok v
  else Except.error ("'" ++ v ++ "' is not a valid IP address")

/-- `DeviceModel.validate_mask`: same parse as `validate_ip`, different
message. -/
def validate_mask (v : String) : Except String String :=
  if ip_address_ok v then Except.ok v
  else Except.error ("'" ++ v ++ "' is not a valid subnet mask")

/-- `DeviceModel.validate_device_type`: membership in `TEMPLATE_MAP`;
the message interpolates `list(TEMPLATE_MAP)`. -/
def validate_device_type (v : String) : Except String String :=
  if (TEMPLATE_MAP.map Prod.fst).contains v then Except.ok v
  else
    Except.error
      ("Unknown device_type '" ++ v ++ "'. Supported: ['cisco_ios', 'juniper_junos']")

/-- `VlanModel.vlan_id_range`. -/
def vlan_id_range (v : Int) : Except String Int :=
  if 1 ≤ v ∧ v ≤ 4094 then Except.ok v
  else Except.error ("VLAN id " ++ toString v ++ " is outside the valid range 1-4094")

/-- `Except` success as a Bool (pydantic: the validator did not raise). -/
def exceptOk {ε α : Type} : Except ε α → Bool
  | Except.ok _ => true
  | Except.error _ => false

example : validate_mask "10.0.0.5" = Except.ok "10.0.0.5" := by rfl
example : validate_mask "300.1.2.3" =
    Except.error "'300.1.2.3' is not a valid subnet mask" := by rfl
example : vlan_id_range 0 = Except.error "VLAN id 0 is outside the valid range 1-4094" := by
  rfl

/-! ## The Mask/Prefix Converter (`_ipv4_prefix_len` and what it delegates to) -/

/-- The 32-bit pattern with `k` leading one-bits: the netmask of prefix
length `k`. -/
def maskBits (k : Nat) : Nat := (2 ^ k - 1) * 2 ^ (32 - k)

/-- `n` is a contiguous leading-ones 32-bit mask pattern. -/
def contiguousMask32 (n : Nat) : Bool :=
  (List.range 33).any fun k => n == maskBits k

/-- CPython `_count_righthand_zero_bits(n, f)`: trailing zero bits of
`n`, capped at `f` (so `0` gives `f`). -/
def count_righthand_zero_bits : Nat → Nat → Nat
  | 0, _ => 0
  | f + 1, n => if n % 2 = 1 then 0 else count_righthand_zero_bits f (n / 2) + 1

/-- CPython `_prefix_from_ip_int`: accept exactly the `1*0*` 32-bit
patterns, returning the count of leading ones. -/
def prefix_from_ip_int (n : Nat) : Option Nat :=
  let t := count_righthand_zero_bits 32 n
  if n >>> t = 2 ^ (32 - t) - 1 then some (32 - t) else none

/-- CPython `_prefix_from_prefix_string`: an all-ASCII-digit string whose
value is between 0 and 32 (else `NetmaskValueError`). -/
def prefix_from_prefix_string (l : List Char) : Option Nat :=
  if l = [] then none
  else if ¬ l.all Char.isDigit then none
  else if digitsToNat l ≤ 32 then some (digitsToNat l) else none

/-- CPython `_prefix_from_ip_string`: parse as dotted-decimal IPv4, try
the netmask pattern, then the hostmask pattern of the complement. -/
def prefix_from_ip_string (l : List Char) : Option Nat :=
  match ip_int_from_string_v4 l with
  | none => none
  | some n =>
    match prefix_from_ip_int n with
    | some p => some p
    | none => prefix_from_ip_int (n ^^^ 4294967295)

/-- CPython `IPv4Network._make_netmask` on a string: prefix-length form
first, dotted netmask/hostmask form on failure. -/
def make_netmask (l : List Char) : Option Nat :=
  match prefix_from_prefix_string l with
  | some p => some p
  | none => prefix_from_ip_string l

/-- CPython `IPv4Network(str)`: split `addr/netmask` on `'/'` (at most
one), parse the address, build the netmask, and apply the strict
host-bits check; the result is the network's `prefixlen`. -/
def IPv4Network_parse_str (full : String) : Option Nat :=
  match splitOnChar '/' full.data with
  | [addrPart] =>
    match ip_int_from_string_v4 addrPart with
    | some a => if a &&& maskBits 32 = a then some 32 else none
    | none => none
  | [addrPart, maskPart] =>
    match ip_int_from_string_v4 addrPart, make_netmask maskPart with
    | some a, some p => if a &&& maskBits p = a then some p else none
    | _, _ => none
  | _ => none

/-- `_ipv4_prefix_len(mask)`: `IPv4Network(f"0.0.0.0/{mask}").prefixlen`;
`none` models the `ValueError` escaping the Jinja2 filter. -/
def ipv4_prefix_len (mask : String) : Option Nat :=
  IPv4Network_parse_str ("0.0.0.0/" ++ mask)

example : ipv4_prefix_len "255.255.255.0" = some 24 := by decide
example : ipv4_prefix_len "255.255.255.252" = some 30 := by decide
example : ipv4_prefix_len "255.255.0.0" = some 16 := by decide
example : ipv4_prefix_len "255.255.255.255" = some 32 := by decide
example : ipv4_prefix_len "0.0.0.0" = some 0 := by decide
example : ipv4_prefix_len "255.0.255.0" = none := by decide
example : ipv4_prefix_len "0.255.255.255" = some 8 := by decide
example : ipv4_prefix_len "24" = some 24 := by decide
example : ipv4_prefix_len "33" = none := by decide
example : ipv4_prefix_len "" = none := by decide
example : ipv4_prefix_len "10.0.0.5" = none := by decide

/-! ## Converter lemmas -/

theorem count_righthand_zero_bits_le (f n : Nat) : count_righthand_zero_bits f n ≤ f := by
  induction f generalizing n with
  | zero => simp [count_righthand_zero_bits]
  | succ f ih =>
    rw [count_righthand_zero_bits]
    by_cases h : n % 2 = 1
    · simp [h]
    · rw [if_neg h]
      exact Nat.succ_le_succ (ih (n / 2))

theorem pow_count_righthand_zero_bits_dvd (f n : Nat) :
    2 ^ count_righthand_zero_bits f n ∣ n := by
  induction f generalizing n with
  | zero => simp [count_righthand_zero_bits]
  | succ f ih =>
    rw [count_righthand_zero_bits]
    by_cases h : n % 2 = 1
    · simp [h]
    · rw [if_neg h]
      have h2 : 2 ∣ n := Nat.dvd_of_mod_eq_zero (by omega)
      have hn : n / 2 * 2 = n := Nat.div_mul_cancel h2
      have hdvd2 : 2 ^ count_righthand_zero_bits f (n / 2) * 2 ∣ n / 2 * 2 :=
        Nat.mul_dvd_mul (ih (n / 2)) (dvd_refl 2)
      rw [hn] at hdvd2
      rw [pow_succ]
      exact hdvd2

theorem prefix_from_ip_int_sound {n p : Nat} (h : prefix_from_ip_int n = some p) :
    p ≤ 32 ∧ n = maskBits p := by
  rw [prefix_from_ip_int] at h
  by_cases hc : n >>> count_righthand_zero_bits 32 n = 2 ^ (32 - count_righthand_zero_bits 32 n) - 1
  · rw [if_pos hc] at h
    injection h with h
    subst h
    refine ⟨Nat.sub_le _ _, ?_⟩
    have htle : count_righthand_zero_bits 32 n ≤ 32 := count_righthand_zero_bits_le 32 n
    have hdvd : 2 ^ count_righthand_zero_bits 32 n ∣ n := pow_count_righthand_zero_bits_dvd 32 n
    have hdiv : n / 2 ^ count_righthand_zero_bits 32 n
        = 2 ^ (32 - count_righthand_zero_bits 32 n) - 1 := by
      rw [← Nat.shiftRight_eq_div_pow]; exact hc
    have hsplit : n = n / 2 ^ count_righthand_zero_bits 32 n * 2 ^ count_righthand_zero_bits 32 n :=
      (Nat.div_mul_cancel hdvd).symm
    rw [maskBits, Nat.sub_sub_self htle, ← hdiv]
    exact hsplit
  · rw [if_neg hc] at h
    exact absurd h (by simp)

theorem prefix_from_ip_int_complete : ∀ k, k < 33 → prefix_from_ip_int (maskBits k) = some k := by
  decide

theorem contiguousMask32_maskBits {k : Nat} (hk : k < 33) :
    contiguousMask32 (maskBits k) = true := by
  rw [contiguousMask32, List.any_eq_true]
  exact ⟨k, List.mem_range.mpr hk, beq_self_eq_true _⟩

theorem prefix_from_ip_int_none_of_not_contiguous {n : Nat} (h : contiguousMask32 n = false) :
    prefix_from_ip_int n = none := by
  cases hp : prefix_from_ip_int n with
  | none => rfl
  | some p =>
    obtain ⟨hle, heq⟩ := prefix_from_ip_int_sound hp
    rw [heq, contiguousMask32_maskBits (by omega)] at h
    exact Bool.noConfusion h

theorem ip4_dot_mem {l : List Char} {n : Nat} (h : ip_int_from_string_v4 l = some n) :
    '.' ∈ l := by
  rw [ip_int_from_string_v4] at h
  by_cases hne : l = []
  · rw [if_pos hne] at h
    exact absurd h (by simp)
  rw [if_neg hne] at h
  split at h
  case _ a b c d heq =>
    have hlen := length_splitOnChar '.' l
    rw [heq] at hlen
    have : 0 < l.count '.' := by simp at hlen; omega
    exact List.count_pos_iff.mp this
  case _ => exact absurd h (by simp)

theorem make_netmask_eq_ip_string {l : List Char} (hdot : '.' ∈ l) :
    make_netmask l = prefix_from_ip_string l := by
  have hne : l ≠ [] := by
    rintro rfl
    exact absurd hdot (List.not_mem_nil _)
  have hall : l.all Char.isDigit = false := by
    rw [List.all_eq_false]
    exact ⟨'.', hdot, by decide⟩
  rw [make_netmask, prefix_from_prefix_string, if_neg hne]
  simp [hall]

theorem ipv4_prefix_len_eq {s : String} {n : Nat} (h : IPv4Address_parse s = some n) :
    ipv4_prefix_len s = make_netmask s.data := by
  have hslash : '/' ∉ s.data := by
    intro hmem
    rw [IPv4Address_parse, if_pos hmem] at h
    exact Option.noConfusion h
  have hdata : ("0.0.0.0/" ++ s).data = "0.0.0.0".data ++ '/' :: s.data := rfl
  have h0 : ip_int_from_string_v4 "0.0.0.0".data = some 0 := by decide
  rw [ipv4_prefix_len, IPv4Network_parse_str, hdata,
    splitOnChar_append s.data (by decide), splitOnChar_not_mem hslash]
  simp only [h0]
  cases hm : make_netmask s.data with
  | none => simp
  | some p => simp [Nat.zero_and]

theorem prefix_from_ip_string_maskBits {l : List Char} {k : Nat} (hk : k < 33)
    (h : ip_int_from_string_v4 l = some (maskBits k)) :
    prefix_from_ip_string l = some k := by
  simp only [prefix_from_ip_string, h, prefix_from_ip_int_complete k hk]

theorem prefix_from_ip_string_none {l : List Char} {n : Nat}
    (h : ip_int_from_string_v4 l = some n)
    (h1 : contiguousMask32 n = false) (h2 : contiguousMask32 (n ^^^ 4294967295) = false) :
    prefix_from_ip_string l = none := by
  simp only [prefix_from_ip_string, h, prefix_from_ip_int_none_of_not_contiguous h1,
    prefix_from_ip_int_none_of_not_contiguous h2]

theorem IPv4Address_parse_v4 {s : String} {n : Nat} (h : IPv4Address_parse s = some n) :
    ip_int_from_string_v4 s.data = some n := by
  rw [IPv4Address_parse] at h
  split at h
  · exact absurd h (by simp)
  · exact h

/-- C2: for every dotted-decimal IPv4 string that denotes the 32-bit
pattern of `k` leading one-bits followed by zero-bits (`k ≤ 32`), the
Mask/Prefix Converter `_ipv4_prefix_len` returns exactly `k`. -/
theorem mask_prefix_converter_contiguous (s : String) (k : Nat) (hk : k ≤ 32)
    (h : IPv4Address_parse s = some (maskBits k)) :
    ipv4_prefix_len s = some k := by
  have hv4 := IPv4Address_parse_v4 h
  rw [ipv4_prefix_len_eq h, make_netmask_eq_ip_string (ip4_dot_mem hv4),
    prefix_from_ip_string_maskBits (by omega) hv4]

/-- Witness for C2 at the spec's four examples. -/
theorem mask_prefix_converter_contiguous_witness :
    ipv4_prefix_len "255.255.255.0" = some 24 ∧ ipv4_prefix_len "255.255.255.252" = some 30
    ∧ ipv4_prefix_len "255.255.0.0" = some 16 ∧ ipv4_prefix_len "255.255.255.255" = some 32 :=
  ⟨mask_prefix_converter_contiguous "255.255.255.0" 24 (by decide) (by decide),
   mask_prefix_converter_contiguous "255.255.255.252" 30 (by decide) (by decide),
   mask_prefix_converter_contiguous "255.255.0.0" 16 (by decide) (by decide),
   mask_prefix_converter_contiguous "255.255.255.255" 32 (by decide) (by decide)⟩

/-- C3 counterexample: `"0.255.255.255"` is a dotted-decimal string whose
bit pattern is NOT a contiguous run of leading one-bits, yet the
converter returns a prefix length (8, via CPython's hostmask fallback)
instead of failing. -/
theorem mask_prefix_hostmask_counterexample :
    IPv4Address_parse "0.255.255.255" = some 16777215
    ∧ contiguousMask32 16777215 = false
    ∧ ipv4_prefix_len "0.255.255.255" = some 8 :=
  ⟨by decide, by decide, by decide⟩

/-- C3 (amended): a dotted-decimal string whose 32-bit pattern is neither
a contiguous leading-ones netmask nor the complement of one (a hostmask)
makes the converter fail with the invalid-mask condition. -/
theorem mask_prefix_converter_rejects_noncontiguous (s : String) (n : Nat)
    (h : IPv4Address_parse s = some n)
    (h1 : contiguousMask32 n = false)
    (h2 : contiguousMask32 (n ^^^ 4294967295) = false) :
    ipv4_prefix_len s = none := by
  have hv4 := IPv4Address_parse_v4 h
  rw [ipv4_prefix_len_eq h, make_netmask_eq_ip_string (ip4_dot_mem hv4),
    prefix_from_ip_string_none hv4 h1 h2]

/-- Witness for the amended C3 at `"255.0.255.0"`. -/
theorem mask_prefix_converter_rejects_noncontiguous_witness :
    ipv4_prefix_len "255.0.255.0" = none :=
  mask_prefix_converter_rejects_noncontiguous "255.0.255.0" 4278255360
    (by decide) (by decide) (by decide)

/-! ## The pydantic models: `VlanModel` and `DeviceModel` -/

/-- A validated `VlanModel`. -/
structure VlanModel where
  id : Int
  name : String
deriving DecidableEq

/-- A validated `DeviceModel`. -/
structure DeviceModel where
  hostname : String
  interface : String
  ip : String
  mask : String
  device_type : String
  description : String
  vlans : List VlanModel
deriving DecidableEq

/-- A raw VLAN mapping as decoded from YAML: each key may be absent. -/
structure RawVlan where
  id : Option Int
  name : Option String

/-- A raw device mapping as decoded from YAML: each key may be absent. -/
structure RawDevice where
  hostname : Option String
  interface : Option String
  ip : Option String
  mask : Option String
  device_type : Option String
  description : Option String
  vlans : Option (List RawVlan)

/-- One entry of a pydantic `ValidationError`: a location and a message. -/
structure FieldError where
  loc : List String
  msg : String
deriving DecidableEq

/-- pydantic's missing-required-field entry. -/
def requiredErr (loc : List String) : FieldError := ⟨loc, "Field required"⟩

/-- pydantic's entry for a `ValueError` raised by a field validator. -/
def valueErr (loc : List String) (m : String) : FieldError := ⟨loc, "Value error, " ++ m⟩

/-- The errors a per-field check contributes. -/
def errsOf {α : Type} : Except (List FieldError) α → List FieldError
  | Except.ok _ => []
  | Except.error e => e

/-- The value of a successful check (with a dummy for the error case,
which validation never exposes). -/
def exVal {α : Type} (dflt : α) : Except (List FieldError) α → α
  | Except.ok a => a
  | Except.error _ => dflt

def checkHostname (r : RawDevice) : Except (List FieldError) String :=
  match r.hostname with
  | none => Except.error [requiredErr ["hostname"]]
  | some v => Except.ok v

def checkInterface (r : RawDevice) : Except (List FieldError) String :=
  match r.interface with
  | none => Except.error [requiredErr ["interface"]]
  | some v => Except.ok v

def checkIp (r : RawDevice) : Except (List FieldError) String :=
  match r.ip with
  | none => Except.error [requiredErr ["ip"]]
  | some v =>
    match validate_ip v with
    | Except.ok w => Except.ok w
    | Except.error m => Except.error [valueErr ["ip"] m]

def checkMask (r : RawDevice) : Except (List FieldError) String :=
  match r.mask with
  | none => Except.error [requiredErr ["mask"]]
  | some v =>
    match validate_mask v with
    | Except.ok w => Except.ok w
    | Except.error m => Except.error [valueErr ["mask"] m]

def checkDeviceType (r : RawDevice) : Except (List FieldError) String :=
  match r.device_type with
  | none => Except.ok DEFAULT_DEVICE_TYPE
  | some v =>
    match validate_device_type v with
    | Except.ok w => Except.ok w
    | Except.error m => Except.error [valueErr ["device_type"] m]

def checkDescription (r : RawDevice) : Except (List FieldError) String :=
  match r.description with
  | none => Except.ok "Uplink"
  | some v => Except.ok v

def checkVlanId (i : Nat) (rv : RawVlan) : Except (List FieldError) Int :=
  match rv.id with
  | none => Except.error [requiredErr ["vlans", toString i, "id"]]
  | some v =>
    match vlan_id_range v with
    | Except.ok w => Except.ok w
    | Except.error m => Except.error [valueErr ["vlans", toString i, "id"] m]

def checkVlanName (i : Nat) (rv : RawVlan) : Except (List FieldError) String :=
  match rv.name with
  | none => Except.error [requiredErr ["vlans", toString i, "name"]]
  | some v => Except.ok v

/-- All error entries of the `i`-th VLAN record. -/
def vlanErrors (i : Nat) (rv : RawVlan) : List FieldError :=
  errsOf (checkVlanId i rv) ++ errsOf (checkVlanName i rv)

/-- pydantic validation of one `VlanModel` (locations carry the index
`i` under the owning device's `vlans` key). -/
def VlanModel_validate (i : Nat) (rv : RawVlan) : Except (List FieldError) VlanModel :=
  if vlanErrors i rv = [] then
    Except.ok ⟨exVal 0 (checkVlanId i rv), exVal "" (checkVlanName i rv)⟩
  else Except.error (vlanErrors i rv)

def checkVlans (r : RawDevice) : Except (List FieldError) (List VlanModel) :=
  match r.vlans with
  | none => Except.ok []
  | some vs =>
    let errs := (vs.enum.map fun p => vlanErrors p.1 p.2).flatten
    if errs = [] then
      Except.ok (vs.enum.map fun p => ⟨exVal 0 (checkVlanId p.1 p.2), exVal "" (checkVlanName p.1 p.2)⟩)
    else Except.error errs

/-- Every failing field detail of one record, in pydantic's field
declaration order. -/
def deviceErrors (r : RawDevice) : List FieldError :=
  errsOf (checkHostname r) ++ errsOf (checkInterface r) ++ errsOf (checkIp r)
    ++ errsOf (checkMask r) ++ errsOf (checkDeviceType r) ++ errsOf (checkDescription r)
    ++ errsOf (checkVlans r)

/-- pydantic `DeviceModel(**record)`: collect every failing field's
errors; raise `ValidationError` when any exist, else build the model. -/
def DeviceModel_validate (r : RawDevice) : Except (List FieldError) DeviceModel :=
  if deviceErrors r = [] then
    Except.ok
      ⟨exVal "" (checkHostname r), exVal "" (checkInterface r), exVal "" (checkIp r),
       exVal "" (checkMask r), exVal "" (checkDeviceType r), exVal "" (checkDescription r),
       exVal [] (checkVlans r)⟩
  else Except.error (deviceErrors r)

example : DeviceModel_validate
    ⟨some "r1", some "Gi0/1", some "10.0.0.1", some "255.255.255.0", none, none,
      some [⟨some 10, some "DATA"⟩]⟩
    = Except.ok ⟨"r1", "Gi0/1", "10.0.0.1", "255.255.255.0", "cisco_ios", "Uplink",
        [⟨10, "DATA"⟩]⟩ := by rfl
example : DeviceModel_validate
    ⟨none, some "Gi0/1", some "10.0.0.999", some "255.255.255.0", none, none, none⟩
    = Except.error [⟨["hostname"], "Field required"⟩,
        ⟨["ip"], "Value error, '10.0.0.999' is not a valid IP address"⟩] := by rfl

/-! ## `validate_devices`: fail-fast batch validation -/

/-- What `validate_devices` logs before `sys.exit(1)`: the 1-based
position, `record.get("hostname", "<unknown>")`, and the full
`ValidationError`. -/
structure BatchError where
  position : Nat
  hostnameShown : String
  errors : List FieldError
deriving DecidableEq

/-- The loop of `validate_devices` from 0-based index `i` on. -/
def validate_devices_from (i : Nat) : List RawDevice → Except BatchError (List DeviceModel)
  | [] => Except.ok []
  | r :: rs =>
    match DeviceModel_validate r with
    | Except.error errs => Except.error ⟨i + 1, r.hostname.getD "<unknown>", errs⟩
    | Except.ok d =>
      match validate_devices_from (i + 1) rs with
      | Except.ok ds => Except.ok (d :: ds)
      | Except.error e => Except.error e

/-- `validate_devices(raw_devices)`: validate in input order, exit on the
first `ValidationError`. -/
def validate_devices (raws : List RawDevice) : Except BatchError (List DeviceModel) :=
  validate_devices_from 0 raws

/-! ## The pipeline of `main`: filter, render, preview or persist -/

/-- POSIX `os.path.join(dir, file)`. -/
def path_join (dir file : String) : String :=
  if file.data.head? = some '/' then file
  else if dir = "" then file
  else if dir.data.getLast? = some '/' then dir ++ file
  else dir ++ "/" ++ file

/-- The dry-run banner and config exactly as `main` prints them: a
leading-newline separator of sixty `'='`, the device line, the separator
again, then the rendered text. -/
def previewLines (d : DeviceModel) (cfg : String) : List String :=
  ["\n" ++ String.mk (List.replicate 60 '='),
   "  Device: " ++ d.hostname ++ "  |  Type: " ++ d.device_type,
   String.mk (List.replicate 60 '='),
   cfg]

/-- Observable outcome of the device loop: files written (path and
content), lines printed to stdout, the `generated` counter, and whether
a missing template aborted the run (`sys.exit(1)` inside
`render_config`). -/
structure LoopOut where
  files : List (String × String)
  printed : List String
  generated : Nat
  aborted : Bool
deriving DecidableEq

/-- The `for device in devices` loop of `main`. `render` abstracts
`render_config` over the Jinja2 environment (the template files are not
part of the inventory-processing core); `none` is `TemplateNotFound`. -/
def run_devices (render : DeviceModel → Option String) (dryRun : Bool) (outputDir : String) :
    List DeviceModel → LoopOut
  | [] => ⟨[], [], 0, false⟩
  | d :: ds =>
    match render d with
    | none => ⟨[], [], 0, true⟩
    | some cfg =>
      let rest := run_devices render dryRun outputDir ds
      if dryRun then
        ⟨rest.files, previewLines d cfg ++ rest.printed, rest.generated + 1, rest.aborted⟩
      else
        ⟨(path_join outputDir (d.hostname ++ ".cfg"), cfg) :: rest.files, rest.printed,
         rest.generated + 1, rest.aborted⟩

/-- Observable outcome of `main` after validation succeeded. -/
structure RunResult where
  files : List (String × String)
  printed : List String
  generated : Nat
  exitCode : Nat
deriving DecidableEq

/-- Exit code 1 when the loop aborted, else 0. -/
def finishRun (p : LoopOut) : RunResult :=
  if p.aborted then ⟨p.files, p.printed, p.generated, 1⟩
  else ⟨p.files, p.printed, p.generated, 0⟩

/-- `main` from the point where `devices` holds the validated inventory:
`if args.device:` (Python truthiness — `None` and `""` both skip the
filter), the zero-match error return, then the device loop. -/
def main_model (render : DeviceModel → Option String) (dryRun : Bool) (outputDir : String)
    (deviceFilter : Option String) (devices : List DeviceModel) : RunResult :=
  match deviceFilter with
  | none => finishRun (run_devices render dryRun outputDir devices)
  | some f =>
    if f = "" then finishRun (run_devices render dryRun outputDir devices)
    else
      let fdevs := devices.filter fun d => d.hostname == f
      if fdevs = [] then ⟨[], [], 0, 1⟩
      else finishRun (run_devices render dryRun outputDir fdevs)

/-! ## C1: mask validation -/

/-- C1 counterexample: the failure message wraps the value in single
quotes, not double quotes; at `v = "notamask"` the produced message
differs from the double-quoted message the claim states. -/
theorem mask_message_single_quotes_counterexample :
    validate_mask "notamask" = Except.error "'notamask' is not a valid subnet mask"
    ∧ "'notamask' is not a valid subnet mask" ≠ "\"notamask\" is not a valid subnet mask" :=
  ⟨by rfl, by decide⟩

/-- C1 (amended to the single-quote message): mask validation succeeds
iff the string parses as an IP address literal, exactly the check
`validate_ip` applies to the `ip` field (so no netmask-specific
constraint), it returns the input unchanged on success, and on failure
its message is `'<v>' is not a valid subnet mask`. -/
theorem mask_validation_iff_ip_literal (v : String) :
    (exceptOk (validate_mask v) = exceptOk (validate_ip v))
    ∧ (exceptOk (validate_mask v) = true ↔ ip_address_ok v = true)
    ∧ (exceptOk (validate_mask v) = true → validate_mask v = Except.ok v)
    ∧ (exceptOk (validate_mask v) = false →
        validate_mask v = Except.error ("'" ++ v ++ "' is not a valid subnet mask")) := by
  rw [validate_mask, validate_ip]
  by_cases h : ip_address_ok v = true
  · simp [h, exceptOk]
  · simp [h, exceptOk]

/-- Witness for C1: a non-mask IP literal is accepted verbatim, and a
junk string gets the single-quoted message. -/
theorem mask_validation_iff_ip_literal_witness :
    validate_mask "10.0.0.5" = Except.ok "10.0.0.5"
    ∧ validate_mask "bogus" = Except.error "'bogus' is not a valid subnet mask" :=
  ⟨(mask_validation_iff_ip_literal "10.0.0.5").2.2.1 (by rfl),
   (mask_validation_iff_ip_literal "bogus").2.2.2 (by rfl)⟩

/-! ## C4: the VLAN id range -/

/-- C4: VLAN id validation succeeds iff `1 ≤ v ≤ 4094`; the rejection
message states the offending value and the range `1-4094`; a whole VLAN
record with that id (and a name) validates iff the id is in range. -/
theorem vlan_id_validation_range (v : Int) :
    (exceptOk (vlan_id_range v) = true ↔ (1 ≤ v ∧ v ≤ 4094))
    ∧ (¬(1 ≤ v ∧ v ≤ 4094) →
        vlan_id_range v
          = Except.error ("VLAN id " ++ toString v ++ " is outside the valid range 1-4094"))
    ∧ (∀ nm i, exceptOk (VlanModel_validate i ⟨some v, some nm⟩) = true ↔ (1 ≤ v ∧ v ≤ 4094)) := by
  refine ⟨?_, ?_, ?_⟩
  · rw [vlan_id_range]
    by_cases h : 1 ≤ v ∧ v ≤ 4094 <;> simp [h, exceptOk]
  · intro h
    rw [vlan_id_range, if_neg h]
  · intro nm i
    rw [VlanModel_validate]
    by_cases h : 1 ≤ v ∧ v ≤ 4094
    · simp [vlanErrors, checkVlanId, checkVlanName, vlan_id_range, h, errsOf, exceptOk]
    · simp [vlanErrors, checkVlanId, checkVlanName, vlan_id_range, h, errsOf, exceptOk]

/-- Witness for C4 at the boundary failures 0 and 5000 and the boundary
successes 1 and 4094. -/
theorem vlan_id_validation_range_witness :
    vlan_id_range 0 = Except.error "VLAN id 0 is outside the valid range 1-4094"
    ∧ vlan_id_range 5000 = Except.error "VLAN id 5000 is outside the valid range 1-4094"
    ∧ exceptOk (vlan_id_range 1) = true ∧ exceptOk (vlan_id_range 4094) = true :=
  ⟨(vlan_id_validation_range 0).2.1 (by decide),
   (vlan_id_validation_range 5000).2.1 (by decide),
   (vlan_id_validation_range 1).1.mpr (by decide),
   (vlan_id_validation_range 4094).1.mpr (by decide)⟩

/-! ## Field-check lemmas -/

theorem validate_ip_ok_eq {v w : String} (h : validate_ip v = Except.ok w) : w = v := by
  rw [validate_ip] at h
  split at h
  · injection h with h; exact h.symm
  · exact absurd h (by simp)

theorem validate_mask_ok_eq {v w : String} (h : validate_mask v = Except.ok w) : w = v := by
  rw [validate_mask] at h
  split at h
  · injection h with h; exact h.symm
  · exact absurd h (by simp)

theorem validate_device_type_ok_eq {v w : String} (h : validate_device_type v = Except.ok w) :
    w = v ∧ (TEMPLATE_MAP.map Prod.fst).contains v = true := by
  rw [validate_device_type] at h
  split at h
  case isTrue hc => injection h with h; exact ⟨h.symm, hc⟩
  case isFalse => exact absurd h (by simp)

theorem DeviceModel_validate_ok {r : RawDevice} {d : DeviceModel}
    (h : DeviceModel_validate r = Except.ok d) :
    deviceErrors r = []
    ∧ d = ⟨exVal "" (checkHostname r), exVal "" (checkInterface r), exVal "" (checkIp r),
        exVal "" (checkMask r), exVal "" (checkDeviceType r), exVal "" (checkDescription r),
        exVal [] (checkVlans r)⟩ := by
  rw [DeviceModel_validate] at h
  split at h
  case isTrue hc => injection h with h; exact ⟨hc, h.symm⟩
  case isFalse hc => exact absurd h (by simp)

theorem deviceErrors_nil {r : RawDevice} (h : deviceErrors r = []) :
    errsOf (checkHostname r) = [] ∧ errsOf (checkInterface r) = []
    ∧ errsOf (checkIp r) = [] ∧ errsOf (checkMask r) = []
    ∧ errsOf (checkDeviceType r) = [] ∧ errsOf (checkDescription r) = []
    ∧ errsOf (checkVlans r) = [] := by
  rw [deviceErrors] at h
  simp only [List.append_eq_nil] at h
  tauto

theorem checkHostname_ok {r : RawDevice} (h : errsOf (checkHostname r) = []) :
    r.hostname = some (exVal "" (checkHostname r)) := by
  cases hf : r.hostname with
  | none => rw [checkHostname, hf] at h; simp [errsOf] at h
  | some v => rw [checkHostname] at h ⊢; rw [hf] at h ⊢; rfl

theorem checkInterface_ok {r : RawDevice} (h : errsOf (checkInterface r) = []) :
    r.interface = some (exVal "" (checkInterface r)) := by
  cases hf : r.interface with
  | none => rw [checkInterface, hf] at h; simp [errsOf] at h
  | some v => rw [checkInterface] at h ⊢; rw [hf] at h ⊢; rfl

theorem checkIp_ok {r : RawDevice} (h : errsOf (checkIp r) = []) :
    r.ip = some (exVal "" (checkIp r)) := by
  cases hf : r.ip with
  | none => rw [checkIp, hf] at h; simp [errsOf] at h
  | some v =>
    rw [checkIp] at h ⊢
    rw [hf] at h ⊢
    cases hv : validate_ip v with
    | error m => simp only [hv, errsOf] at h; exact absurd h (by simp)
    | ok w => simp only [hv, exVal, validate_ip_ok_eq hv]

theorem checkMask_ok {r : RawDevice} (h : errsOf (checkMask r) = []) :
    r.mask = some (exVal "" (checkMask r)) := by
  cases hf : r.mask with
  | none => rw [checkMask, hf] at h; simp [errsOf] at h
  | some v =>
    rw [checkMask] at h ⊢
    rw [hf] at h ⊢
    cases hv : validate_mask v with
    | error m => simp only [hv, errsOf] at h; exact absurd h (by simp)
    | ok w => simp only [hv, exVal, validate_mask_ok_eq hv]

/-! ## C10: accepted values flow through unchanged -/

/-- C10: for every raw record that validates, the validated device's
`hostname`, `interface`, `ip` and `mask` are exactly the raw input
strings — no validator rewrites, normalizes or canonicalizes. -/
theorem validation_preserves_fields (r : RawDevice) (d : DeviceModel)
    (h : DeviceModel_validate r = Except.ok d) :
    r.hostname = some d.hostname ∧ r.interface = some d.interface
    ∧ r.ip = some d.ip ∧ r.mask = some d.mask := by
  obtain ⟨hnil, hd⟩ := DeviceModel_validate_ok h
  obtain ⟨h1, h2, h3, h4, _, _, _⟩ := deviceErrors_nil hnil
  subst hd
  exact ⟨checkHostname_ok h1, checkInterface_ok h2, checkIp_ok h3, checkMask_ok h4⟩

/-- A well-formed raw record used by the witnesses. -/
def sampleRaw : RawDevice :=
  ⟨some "edge-router-01", some "GigabitEthernet0/1", some "10.0.0.1",
   some "255.255.255.0", none, none, none⟩

/-- What `sampleRaw` validates to. -/
def sampleValidated : DeviceModel :=
  ⟨"edge-router-01", "GigabitEthernet0/1", "10.0.0.1", "255.255.255.0",
   "cisco_ios", "Uplink", []⟩

/-- Witness for C10 at `sampleRaw`. -/
theorem validation_preserves_fields_witness :
    sampleRaw.hostname = some sampleValidated.hostname
    ∧ sampleRaw.interface = some sampleValidated.interface
    ∧ sampleRaw.ip = some sampleValidated.ip
    ∧ sampleRaw.mask = some sampleValidated.mask :=
  validation_preserves_fields sampleRaw sampleValidated (by rfl)

/-! ## C6: device_type default and membership -/

/-- C6: an absent `device_type` resolves to `"cisco_ios"`; a present one
validates only as a key of `TEMPLATE_MAP` and is kept verbatim; an
unknown one makes the record fail with a message enumerating the
supported set. -/
theorem device_type_default_and_membership (r : RawDevice) :
    (r.device_type = none → ∀ d, DeviceModel_validate r = Except.ok d →
      d.device_type = "cisco_ios")
    ∧ (∀ v d, r.device_type = some v → DeviceModel_validate r = Except.ok d →
        (TEMPLATE_MAP.map Prod.fst).contains v = true ∧ d.device_type = v)
    ∧ (∀ v, r.device_type = some v → (TEMPLATE_MAP.map Prod.fst).contains v = false →
        DeviceModel_validate r = Except.error (deviceErrors r)
        ∧ valueErr ["device_type"]
            ("Unknown device_type '" ++ v ++ "'. Supported: ['cisco_ios', 'juniper_junos']")
          ∈ deviceErrors r) := by
  refine ⟨?_, ?_, ?_⟩
  · intro hn d h
    obtain ⟨hnil, hd⟩ := DeviceModel_validate_ok h
    subst hd
    show exVal "" (checkDeviceType r) = "cisco_ios"
    rw [checkDeviceType, hn]
    rfl
  · intro v d hv h
    obtain ⟨hnil, hd⟩ := DeviceModel_validate_ok h
    obtain ⟨_, _, _, _, h5, _, _⟩ := deviceErrors_nil hnil
    subst hd
    show _ ∧ exVal "" (checkDeviceType r) = v
    rw [checkDeviceType] at h5 ⊢
    rw [hv] at h5 ⊢
    cases hw : validate_device_type v with
    | error m => simp only [hw, errsOf] at h5; exact absurd h5 (by simp)
    | ok w =>
      obtain ⟨hwv, hmem⟩ := validate_device_type_ok_eq hw
      simp only [hw, exVal, hwv]
      exact ⟨hmem, trivial⟩
  · intro v hv hmem
    have hvd : validate_device_type v
        = Except.error ("Unknown device_type '" ++ v ++ "'. Supported: ['cisco_ios', 'juniper_junos']") := by
      rw [validate_device_type, if_neg (by intro hc; rw [hmem] at hc; exact Bool.noConfusion hc)]
    have hbad : checkDeviceType r
        = Except.error [valueErr ["device_type"]
            ("Unknown device_type '" ++ v ++ "'. Supported: ['cisco_ios', 'juniper_junos']")] := by
      rw [checkDeviceType, hv]
      simp only [hvd]
    have hmem2 : valueErr ["device_type"]
        ("Unknown device_type '" ++ v ++ "'. Supported: ['cisco_ios', 'juniper_junos']")
        ∈ deviceErrors r := by
      rw [deviceErrors, hbad]
      simp [errsOf]
    have hne : deviceErrors r ≠ [] := by
      intro hnil
      rw [hnil] at hmem2
      exact absurd hmem2 (List.not_mem_nil _)
    exact ⟨by rw [DeviceModel_validate, if_neg hne], hmem2⟩

/-- A raw record whose `device_type` is not a `TEMPLATE_MAP` key. -/
def sampleRawArista : RawDevice :=
  ⟨some "edge-router-01", some "GigabitEthernet0/1", some "10.0.0.1",
   some "255.255.255.0", some "arista_eos", none, none⟩

/-- Witness for C6: the default resolves, and the unknown type's message
is among the record's errors. -/
theorem device_type_default_and_membership_witness :
    sampleValidated.device_type = "cisco_ios"
    ∧ valueErr ["device_type"]
        "Unknown device_type 'arista_eos'. Supported: ['cisco_ios', 'juniper_junos']"
      ∈ deviceErrors sampleRawArista :=
  ⟨(device_type_default_and_membership sampleRaw).1 rfl sampleValidated (by rfl),
   ((device_type_default_and_membership sampleRawArista).2.2 "arista_eos" rfl (by rfl)).2⟩

/-! ## Batch-validation lemmas -/

theorem validate_devices_from_ok {n : Nat} {l : List RawDevice} {out : List DeviceModel}
    (h : validate_devices_from n l = Except.ok out) :
    out.length = l.length
    ∧ ∀ i (hi : i < l.length) (ho : i < out.length),
        DeviceModel_validate (l.get ⟨i, hi⟩) = Except.ok (out.get ⟨i, ho⟩) := by
  induction l generalizing n out with
  | nil =>
    rw [validate_devices_from] at h
    injection h with h
    subst h
    exact ⟨rfl, fun i hi => absurd hi (by simp)⟩
  | cons r rs ih =>
    rw [validate_devices_from] at h
    cases hd : DeviceModel_validate r with
    | error e => simp only [hd] at h; exact absurd h (by simp)
    | ok d =>
      simp only [hd] at h
      cases ht : validate_devices_from (n + 1) rs with
      | error e => simp only [ht] at h; exact absurd h (by simp)
      | ok ds =>
        simp only [ht] at h
        injection h with h
        subst h
        obtain ⟨hlen, hpt⟩ := ih ht
        refine ⟨by simp [hlen], ?_⟩
        intro i hi ho
        cases i with
        | zero => exact hd
        | succ j => exact hpt j (by simpa using hi) (by simpa using ho)

theorem validate_devices_from_of_all_ok {n : Nat} {l : List RawDevice}
    (h : ∀ r ∈ l, exceptOk (DeviceModel_validate r) = true) :
    ∃ out, validate_devices_from n l = Except.ok out := by
  induction l generalizing n with
  | nil => exact ⟨[], rfl⟩
  | cons r rs ih =>
    have hr := h r (List.mem_cons_self r rs)
    cases hd : DeviceModel_validate r with
    | error e => rw [hd] at hr; exact absurd hr (by simp [exceptOk])
    | ok d =>
      obtain ⟨out, hout⟩ := ih (n := n + 1) (fun x hx => h x (List.mem_cons_of_mem r hx))
      refine ⟨d :: out, ?_⟩
      rw [validate_devices_from]
      simp only [hd, hout]

theorem validate_devices_from_fails {n : Nat} {l : List RawDevice} {i : Nat}
    (hi : i < l.length)
    (hfail : exceptOk (DeviceModel_validate (l.get ⟨i, hi⟩)) = false) :
    exceptOk (validate_devices_from n l) = false := by
  induction l generalizing n i with
  | nil => exact absurd hi (by simp)
  | cons r rs ih =>
    rw [validate_devices_from]
    cases i with
    | zero =>
      have hfail0 : exceptOk (DeviceModel_validate r) = false := hfail
      cases hd : DeviceModel_validate r with
      | error e => simp only [hd, exceptOk]
      | ok d => rw [hd] at hfail0; exact absurd hfail0 (by simp [exceptOk])
    | succ j =>
      have hfailj : exceptOk (DeviceModel_validate (rs.get ⟨j, by simpa using hi⟩)) = false := hfail
      cases hd : DeviceModel_validate r with
      | error e => simp only [hd, exceptOk]
      | ok d =>
        simp only [hd]
        have hrest := ih (n := n + 1) (by simpa using hi) hfailj
        cases ht : validate_devices_from (n + 1) rs with
        | error e => simp only [ht, exceptOk]
        | ok ds => rw [ht] at hrest; exact absurd hrest (by simp [exceptOk])

theorem validate_devices_from_append {n : Nat} {l : List RawDevice}
    (h : exceptOk (validate_devices_from n l) = false) (t : List RawDevice) :
    validate_devices_from n (l ++ t) = validate_devices_from n l := by
  induction l generalizing n with
  | nil => rw [validate_devices_from] at h; exact absurd h (by simp [exceptOk])
  | cons r rs ih =>
    rw [List.cons_append, validate_devices_from, validate_devices_from]
    cases hd : DeviceModel_validate r with
    | error e => simp only [hd]
    | ok d =>
      have hrest : exceptOk (validate_devices_from (n + 1) rs) = false := by
        rw [validate_devices_from] at h
        simp only [hd] at h
        cases ht : validate_devices_from (n + 1) rs with
        | error e => simp [exceptOk]
        | ok ds => rw [ht] at h; exact absurd h (by simp [exceptOk])
      simp only [hd, ih hrest]

/-! ## C5: fail-fast batch validation -/

/-- C5: `validate_devices` validates in input order: when every record is
valid it returns a list of the same length whose `i`-th element is the
`i`-th record's validation; when some record is invalid the whole batch
fails, and the outcome is already determined by the records up to and
including the first invalid one (any tail beyond it is never examined). -/
theorem batch_validation_fail_fast (raws : List RawDevice) :
    ((∀ r ∈ raws, exceptOk (DeviceModel_validate r) = true) →
      ∃ out, validate_devices raws = Except.ok out)
    ∧ (∀ out, validate_devices raws = Except.ok out →
        out.length = raws.length
        ∧ ∀ i (hi : i < raws.length) (ho : i < out.length),
            DeviceModel_validate (raws.get ⟨i, hi⟩) = Except.ok (out.get ⟨i, ho⟩))
    ∧ (∀ i (hi : i < raws.length),
        exceptOk (DeviceModel_validate (raws.get ⟨i, hi⟩)) = false →
        exceptOk (validate_devices raws) = false
        ∧ ∀ tail, validate_devices (raws.take (i + 1) ++ tail) = validate_devices raws) := by
  refine ⟨?_, ?_, ?_⟩
  · intro h
    exact validate_devices_from_of_all_ok h
  · intro out h
    exact validate_devices_from_ok h
  · intro i hi hfail
    have hitake : i < (raws.take (i + 1)).length := by
      simp [List.length_take]
      omega
    have hget : (raws.take (i + 1)).get ⟨i, hitake⟩ = raws.get ⟨i, hi⟩ := by
      simp [List.get_eq_getElem, List.getElem_take]
    have hfailtake : exceptOk (DeviceModel_validate ((raws.take (i + 1)).get ⟨i, hitake⟩)) = false := by
      rw [hget]; exact hfail
    have htakefails : exceptOk (validate_devices_from 0 (raws.take (i + 1))) = false :=
      validate_devices_from_fails hitake hfailtake
    have hsplit : validate_devices raws = validate_devices_from 0 (raws.take (i + 1)) := by
      conv_lhs => rw [validate_devices, ← List.take_append_drop (i + 1) raws]
      exact validate_devices_from_append htakefails _
    constructor
    · rw [hsplit]; exact htakefails
    · intro tail
      rw [validate_devices, validate_devices_from_append htakefails tail, ← hsplit]

/-- A raw record whose `ip` fails validation (used as the failing batch
entry by the witnesses). -/
def sampleRawBadIp : RawDevice :=
  ⟨none, some "Gi0/1", some "10.0.0.999", some "255.255.255.0", none, none, none⟩

/-- Witness for C5: an all-valid batch succeeds; a batch whose first
record is invalid fails regardless of the tail. -/
theorem batch_validation_fail_fast_witness :
    (∃ out, validate_devices [sampleRaw] = Except.ok out)
    ∧ exceptOk (validate_devices [sampleRawBadIp, sampleRaw]) = false :=
  ⟨(batch_validation_fail_fast [sampleRaw]).1
      (by intro r hr; simp at hr; subst hr; rfl),
   ((batch_validation_fail_fast [sampleRawBadIp, sampleRaw]).2.2 0 (by decide) (by rfl)).1⟩

/-! ## C9: what the first failure reports -/

theorem validate_devices_from_first_error {l : List RawDevice} {i : Nat} {errs : List FieldError}
    (n : Nat) (hi : i < l.length)
    (hfail : DeviceModel_validate (l.get ⟨i, hi⟩) = Except.error errs)
    (hok : ∀ j (hj : j < i), exceptOk (DeviceModel_validate (l.get ⟨j, by omega⟩)) = true) :
    validate_devices_from n l
      = Except.error ⟨n + i + 1, (l.get ⟨i, hi⟩).hostname.getD "<unknown>", errs⟩ := by
  induction l generalizing n i with
  | nil => exact absurd hi (by simp)
  | cons r rs ih =>
    cases i with
    | zero =>
      have hfail0 : DeviceModel_validate r = Except.error errs := hfail
      rw [validate_devices_from]
      simp only [hfail0]
      rfl
    | succ j =>
      have hok0 : exceptOk (DeviceModel_validate r) = true := hok 0 (Nat.succ_pos j)
      cases hd : DeviceModel_validate r with
      | error e => rw [hd] at hok0; exact absurd hok0 (by simp [exceptOk])
      | ok d =>
        have hilen : j < rs.length := by simpa using hi
        have hfailj : DeviceModel_validate (rs.get ⟨j, hilen⟩) = Except.error errs :=
          hfail
        have hokj : ∀ k (hk : k < j),
            exceptOk (DeviceModel_validate (rs.get ⟨k, by omega⟩)) = true :=
          fun k hk => hok (k + 1) (by omega)
        have hrec := ih (n := n + 1) (by simpa using hi) hfailj hokj
        rw [validate_devices_from]
        simp only [hd, hrec]
        have harith : n + 1 + j + 1 = n + (j + 1) + 1 := by omega
        rw [harith]
        rfl

/-- C9: when the batch hits its first invalid record, the reported error
carries that record's 1-based position, its raw `hostname` (or
`"<unknown>"` when the hostname key is missing), and every failing field
detail pydantic collected for that record. -/
theorem first_invalid_record_reported (raws : List RawDevice) (i : Nat) (hi : i < raws.length)
    (errs : List FieldError)
    (hfail : DeviceModel_validate (raws.get ⟨i, hi⟩) = Except.error errs)
    (hok : ∀ j (hj : j < i), exceptOk (DeviceModel_validate (raws.get ⟨j, by omega⟩)) = true) :
    validate_devices raws
      = Except.error ⟨i + 1, (raws.get ⟨i, hi⟩).hostname.getD "<unknown>", errs⟩ := by
  have h := validate_devices_from_first_error 0 hi hfail hok
  rw [validate_devices, h]
  have : 0 + i + 1 = i + 1 := by omega
  rw [this]

/-- Witness for C9: the second record fails with a missing hostname and a
bad ip; the report shows position 2, `"<unknown>"`, and both field
details. -/
theorem first_invalid_record_reported_witness :
    validate_devices [sampleRaw, sampleRawBadIp]
      = Except.error ⟨2, "<unknown>",
          [⟨["hostname"], "Field required"⟩,
           ⟨["ip"], "Value error, '10.0.0.999' is not a valid IP address"⟩]⟩ :=
  first_invalid_record_reported [sampleRaw, sampleRawBadIp] 1 (by decide)
    [⟨["hostname"], "Field required"⟩,
     ⟨["ip"], "Value error, '10.0.0.999' is not a valid IP address"⟩]
    (by rfl)
    (by
      intro j hj
      have hj0 : j = 0 := by omega
      subst hj0
      rfl)

/-! ## Pipeline lemmas, C7 and C8 -/

theorem run_devices_persist (render : DeviceModel → String) (outputDir : String)
    (devices : List DeviceModel) :
    run_devices (fun d => some (render d)) false outputDir devices
      = ⟨devices.map (fun d => (path_join outputDir (d.hostname ++ ".cfg"), render d)), [],
         devices.length, false⟩ := by
  induction devices with
  | nil => rfl
  | cons d ds ih =>
    rw [run_devices]
    simp only [ih]
    rfl

theorem run_devices_preview (render : DeviceModel → String) (outputDir : String)
    (devices : List DeviceModel) :
    run_devices (fun d => some (render d)) true outputDir devices
      = ⟨[], (devices.map fun d => previewLines d (render d)).flatten, devices.length, false⟩ := by
  induction devices with
  | nil => rfl
  | cons d ds ih =>
    rw [run_devices]
    simp only [ih]
    rfl

/-- C7: with no filter and every template present, persist mode writes
exactly one `<hostname>.cfg` file per device (in order, each holding that
device's rendered text) and counts every device, while preview mode
writes no files and prints the banner block plus the same rendered text
for each device; both exit 0. -/
theorem pipeline_output_per_device (render : DeviceModel → String) (outputDir : String)
    (devices : List DeviceModel) :
    main_model (fun d => some (render d)) false outputDir none devices
      = ⟨devices.map (fun d => (path_join outputDir (d.hostname ++ ".cfg"), render d)), [],
         devices.length, 0⟩
    ∧ main_model (fun d => some (render d)) true outputDir none devices
      = ⟨[], (devices.map fun d => previewLines d (render d)).flatten, devices.length, 0⟩ := by
  constructor
  · show finishRun (run_devices (fun d => some (render d)) false outputDir devices) = _
    rw [run_devices_persist]
    rfl
  · show finishRun (run_devices (fun d => some (render d)) true outputDir devices) = _
    rw [run_devices_preview]
    rfl

/-- C8 counterexample: `--device ""` supplies a hostname filter that
matches zero devices, yet Python's truthiness test `if args.device:`
skips the filter entirely: the run renders every device and exits 0
instead of reporting a user error. -/
theorem filter_empty_string_counterexample :
    List.filter (fun d => d.hostname == "") [sampleValidated] = []
    ∧ main_model (fun _ => some "cfg") false "output" (some "") [sampleValidated]
      = ⟨[("output/edge-router-01.cfg", "cfg")], [], 1, 0⟩ :=
  ⟨by rfl, by rfl⟩

/-- C8 (amended to non-empty filters): a supplied non-empty hostname
filter matching zero validated devices ends the run with exit code 1,
no files, no printing and no rendering (the outcome is the same for
every renderer and mode). -/
theorem filter_no_match_error (render : DeviceModel → Option String) (dryRun : Bool)
    (outputDir : String) (f : String) (devices : List DeviceModel)
    (hne : f ≠ "") (hmatch : devices.filter (fun d => d.hostname == f) = []) :
    main_model render dryRun outputDir (some f) devices = ⟨[], [], 0, 1⟩ := by
  rw [main_model]
  simp only [if_neg hne, hmatch]
  rfl

/-- Witness for the amended C8: filtering one device by a hostname it
does not carry. -/
theorem filter_no_match_error_witness :
    main_model (fun _ => none) false "output" (some "core-switch") [sampleValidated]
      = ⟨[], [], 0, 1⟩ :=
  filter_no_match_error (fun _ => none) false "output" "core-switch" [sampleValidated]
    (by decide) (by rfl)
